import Mathlib

/-!
Verification of the résumé/job match-scoring pipeline of the
`ai_resume_analyser_backend` repository: the skill reconciler
(`AIService.analyzeSkillGaps`), the similarity scorer
(`VectorService.calculateSimilarityPercentage`), the match orchestrator
(`matchJob`), the candidate finder (`findCandidates`), the extraction-schema
normalizer (`ExtractedSkillsSchema`), and the vector-deletion paths
(`VectorService.deleteVector`, `deleteResume`).

TypeScript strings are modelled as Lean `String`; JS `a.includes(b)` is
modelled as a contiguous-occurrence check on the character lists; JS
`toLowerCase` is modelled as `jsToLower` (character-wise lower-casing). JS
numbers are modelled as `ℚ` (the arithmetic the scorer performs is
exact on the inputs of interest); `Math.round` is `⌊x + 1/2⌋`.
-/

/-- Model of JS `toLowerCase`: lower-case each character (`String.toLower`
written directly over the character list so that it evaluates by reduction). -/
def jsToLower (s : String) : String := ⟨s.data.map Char.toLower⟩

/-- `leadsWith p l` is true when the character list `p` occurs at the very
start of `l` (helper for the JS `String.prototype.includes` model). -/
def leadsWith : List Char → List Char → Bool
  | [], _ => true
  | _ :: _, [] => false
  | a :: as, b :: bs => a == b && leadsWith as bs

/-- `containsSeg p l` is true when `p` occurs contiguously somewhere in `l`. -/
def containsSeg (p : List Char) : List Char → Bool
  | [] => leadsWith p []
  | c :: rest => leadsWith p (c :: rest) || containsSeg p rest

/-- Model of JS `a.includes(b)`: `b` occurs as a contiguous substring of `a`.
Note `a.includes("")` is true, matching JS. -/
def strIncludes (a b : String) : Bool := containsSeg b.data a.data

/-- Embeds the TS `ExtractedSkills` interface (src/types): five always-present
skill-list fields, optional scalars, and optional `education` /
`certifications` lists. The source field named `partial` elsewhere is renamed
`partialSkills` (Lean keyword). -/
structure ExtractedSkills where
  technicalSkills : List String
  frameworks : List String
  languages : List String
  tools : List String
  softSkills : List String
  yearsOfExperience : Option Int
  currentRole : Option String
  education : Option (List String)
  certifications : Option (List String)
deriving DecidableEq, Repr

/-- Embeds the TS `SkillGap` interface: `{missing, matched, partial}`.
The `partial` field is named `partialSkills` (`partial` is a Lean keyword). -/
structure SkillGap where
  missing : List String
  matched : List String
  partialSkills : List String
deriving DecidableEq, Repr

/-- The résumé side of `analyzeSkillGaps`: `new Set([...technicalSkills,
...frameworks, ...tools].map(s => s.toLowerCase()))`. We keep the lower-cased
list itself: JS `Set.has` is list membership and `Array.from(set).some(p)` is
`List.any p` (deduplication changes neither). -/
def resumeSkillSet (r : ExtractedSkills) : List String :=
  (r.technicalSkills ++ r.frameworks ++ r.tools).map jsToLower

/-- The job side of `analyzeSkillGaps` (and the `allJobSkills` list built in
`matchJob`): `[...technicalSkills, ...frameworks, ...tools]`, duplicates
kept, order preserved. -/
def jobAllSkills (j : ExtractedSkills) : List String :=
  j.technicalSkills ++ j.frameworks ++ j.tools

/-- The three-way outcome of the loop body of `analyzeSkillGaps`. -/
inductive SkillClass
  | matchedC
  | partialC
  | missingC
deriving DecidableEq, Repr

/-- The loop body's decision in `analyzeSkillGaps`, lines 123-139 of
ai.service.ts: exact lower-cased membership first, then the two-way substring
check `rs.includes(skillLower) || skillLower.includes(rs)`, else missing. -/
def classifySkill (resumeSet : List String) (skill : String) : SkillClass :=
  let skillLower := jsToLower skill
  if resumeSet.contains skillLower then .matchedC
  else if resumeSet.any (fun rs => strIncludes rs skillLower || strIncludes skillLower rs) then
    .partialC
  else .missingC

/-- One iteration of the `for (const skill of jobAllSkills)` loop: push the
skill (original casing) onto the bucket chosen by `classifySkill`. -/
def gapStep (resumeSet : List String) (g : SkillGap) (skill : String) : SkillGap :=
  match classifySkill resumeSet skill with
  | .matchedC => { g with matched := g.matched ++ [skill] }
  | .partialC => { g with partialSkills := g.partialSkills ++ [skill] }
  | .missingC => { g with missing := g.missing ++ [skill] }

/-- Embeds `AIService.analyzeSkillGaps` (ai.service.ts lines 102-143). -/
def analyzeSkillGaps (resumeSkills jobSkills : ExtractedSkills) : SkillGap :=
  (jobAllSkills jobSkills).foldl (gapStep (resumeSkillSet resumeSkills)) ⟨[], [], []⟩

/-- JS `Math.round`: round half toward positive infinity. -/
def jsRound (x : ℚ) : ℤ := ⌊x + 1 / 2⌋

/-- Embeds `VectorService.calculateSimilarityPercentage` (vector.service.ts
lines 202-207): `percentage = ((score + 1) / 2) * 100`, then
`Math.round(percentage * 10) / 10`. There is no clamping in the source. -/
def calculateSimilarityPercentage (score : ℚ) : ℚ :=
  let percentage := ((score + 1) / 2) * 100
  (jsRound (percentage * 10) : ℚ) / 10

/-- Résumé profile from the spec's scenario: combined skills Python, Docker. -/
def pythonResumeProfile : ExtractedSkills :=
  ⟨["Python", "Docker"], [], [], [], [], none, none, none, none⟩

/-- Job profile from the spec's scenario: combined skills Python, AWS, Django. -/
def pythonJobProfile : ExtractedSkills :=
  ⟨["Python", "AWS", "Django"], [], [], [], [], none, none, none, none⟩

/-- Spec-worded predicate (claim C2): the lower-cased job skill is an element
of the résumé's lower-cased combined skill set. -/
def exactMatchSpec (r : ExtractedSkills) (s : String) : Prop :=
  jsToLower s ∈ resumeSkillSet r

/-- Spec-worded predicate (claim C2): some résumé skill is a substring of the
lower-cased job skill, or the lower-cased job skill is a substring of some
résumé skill. -/
def substringMatchSpec (r : ExtractedSkills) (s : String) : Prop :=
  ∃ t ∈ resumeSkillSet r,
    strIncludes t (jsToLower s) = true ∨ strIncludes (jsToLower s) t = true

instance (r : ExtractedSkills) (s : String) : Decidable (exactMatchSpec r s) := by
  unfold exactMatchSpec
  infer_instance

instance (r : ExtractedSkills) (s : String) : Decidable (substringMatchSpec r s) := by
  unfold substringMatchSpec
  infer_instance

/-- Embeds the `type` discriminator of the Pinecone vector metadata. -/
inductive VKind
  | resumeKind
  | jobKind
deriving DecidableEq, Repr

/-- Embeds the TS `VectorMetadata` interface. -/
structure VectorMetadata where
  type : VKind
  id : String
  skills : List String
  title : Option String
deriving DecidableEq, Repr

/-- Embeds the TS `VectorQueryResult` interface: one ranked hit of a vector
index query. -/
structure VectorQueryResult where
  id : String
  score : ℚ
  metadata : VectorMetadata
deriving DecidableEq, Repr

/-- Embeds lines 93-98 of the `matchJob` controller: locate the just-inserted
job vector among the top-10 similarity hits, default the raw score to 0 when
absent (`matchingResult?.score || 0`), then convert to a percentage. -/
def matchSimilarityScore (similarResults : List VectorQueryResult)
    (jobVectorId : String) : ℚ :=
  let matchingResult := similarResults.find? (fun r => r.id == jobVectorId)
  let rawScore :=
    match matchingResult with
    | some r => r.score
    | none => 0
  calculateSimilarityPercentage rawScore

/-- The untrusted shape fed to `ExtractedSkillsSchema`: any field may be
absent. Present fields are taken as already type-correct (zod rejects
type-mismatched input; the claims here concern presence and defaulting). -/
structure RawExtractedSkills where
  technicalSkills : Option (List String)
  frameworks : Option (List String)
  languages : Option (List String)
  tools : Option (List String)
  softSkills : Option (List String)
  yearsOfExperience : Option Int
  currentRole : Option String
  education : Option (List String)
  certifications : Option (List String)
deriving DecidableEq, Repr

/-- Embeds `ExtractedSkillsSchema` (src/types lines 80-90): the five skill
list fields carry `.default([])`, the scalar fields and the `education` and
`certifications` lists carry `.optional()` and pass through unchanged. -/
def parseExtractedSkills (raw : RawExtractedSkills) : ExtractedSkills :=
  { technicalSkills := raw.technicalSkills.getD []
    frameworks := raw.frameworks.getD []
    languages := raw.languages.getD []
    tools := raw.tools.getD []
    softSkills := raw.softSkills.getD []
    yearsOfExperience := raw.yearsOfExperience
    currentRole := raw.currentRole
    education := raw.education
    certifications := raw.certifications }

/-- The résumé projection `findCandidates` selects from storage. -/
structure ResumeSummary where
  id : String
  fileName : String
deriving DecidableEq, Repr

/-- One entry of the `findCandidates` response: the spread `{...resume,
similarityScore}`. When the owning résumé no longer exists, the spread of
`undefined` leaves only `similarityScore`, modelled by `resumeRec = none`. -/
structure CandidateEntry where
  resumeRec : Option ResumeSummary
  similarityScore : ℚ
deriving DecidableEq, Repr

/-- The topK actually requested from the vector index by `findCandidates`:
`Math.min(topK, 20)` (part_002 line 279). There is no lower clamp in the
source. -/
def requestedTopK (topK : Int) : Int := min topK 20

/-- Embeds `findCandidates` (part_002 lines 257-312). The external vector
index is modelled as its ranked hit list, of which a query with limit k
returns the first k hits (spec section 6: results ranked by descending
score). The prisma lookup `findMany(id in hits)` followed by
`resumes.find(...)` per hit equals a direct `find?` against the résumé store
for each hit id. -/
def findCandidates (index : List VectorQueryResult) (resumes : List ResumeSummary)
    (topK : Int) : List CandidateEntry :=
  let results := index.take (requestedTopK topK).toNat
  results.map (fun r =>
    { resumeRec := resumes.find? (fun x => x.id == r.metadata.id)
      similarityScore := calculateSimilarityPercentage r.score })

/-- Embeds `VectorService.deleteVector` (vector.service.ts lines 212-222):
the index `deleteOne` call sits in a try/catch whose catch only logs, so any
outcome of the index operation yields success. The index operation's outcome
is passed in as a value. -/
def deleteVector (indexDeleteOutcome : Except String Unit) : Except String Unit :=
  match indexDeleteOutcome with
  | Except.ok _ => Except.ok ()
  | Except.error _ => Except.ok ()

/-- Embeds the prisma `Resume` row as used by `matchJob` and `deleteResume`. -/
structure ResumeRecord where
  id : String
  rawText : String
  extractedSkills : ExtractedSkills
  vectorId : Option String
deriving Repr

/-- Embeds the `deleteResume` controller (part_004 lines 187-224): 404 when
the résumé is unknown, otherwise delete the vector (when a vectorId is
recorded) and then the row, reporting success. -/
def deleteResume (resumes : List ResumeRecord) (id : String)
    (indexDeleteOutcome : Except String Unit) : Except String (List ResumeRecord) :=
  match resumes.find? (fun r => r.id == id) with
  | none => Except.error "Resume not found"
  | some r =>
    match
      (match r.vectorId with
       | some _ => deleteVector indexDeleteOutcome
       | none => Except.ok ()) with
    | Except.ok _ => Except.ok (resumes.filter (fun x => !(x.id == id)))
    | Except.error e => Except.error e

/-- Embeds the TS `JobMatchRequest` interface. -/
structure JobMatchRequest where
  resumeId : String
  jobTitle : String
  jobDescription : String
  company : Option String
deriving Repr

/-- Embeds `JobMatchRequestSchema` (src/types lines 73-78): zod reports the
first failing field in schema order. -/
def validateJobMatchRequest (req : JobMatchRequest) : Option String :=
  if req.resumeId.length < 1 then some "Resume ID is required"
  else if req.jobTitle.length < 1 then some "Job title is required"
  else if req.jobDescription.length < 50 then
    some "Job description must be at least 50 characters"
  else none

/-- Embeds the prisma `JobDescription` row created by `matchJob`. -/
structure JobRecord where
  id : Nat
  title : String
  company : Option String
  description : String
  requiredSkills : ExtractedSkills
  vectorId : Option String
deriving Repr

/-- Embeds the prisma `JobMatch` row upserted by `matchJob`, keyed by the
unique pair (resumeId, jobId). -/
structure MatchRecord where
  resumeId : String
  jobId : Nat
  similarityScore : ℚ
  skillGaps : SkillGap
  matchedSkills : List String
  interviewQuestions : List String
  recommendations : List String
deriving Repr

/-- Embeds `prisma.jobMatch.upsert` keyed by `resumeId_jobId` (part_002
lines 115-138): replace the row with that key when present, else append. -/
def upsertJobMatch (ms : List MatchRecord) (m : MatchRecord) : List MatchRecord :=
  if ms.any (fun x => x.resumeId == m.resumeId && x.jobId == m.jobId) then
    ms.map (fun x =>
      if x.resumeId == m.resumeId && x.jobId == m.jobId then m else x)
  else ms ++ [m]

/-- Number of match rows stored for a given (resumeId, jobId) pair. -/
def pairCount (ms : List MatchRecord) (rid : String) (jid : Nat) : Nat :=
  ms.countP (fun m => m.resumeId == rid && m.jobId == jid)

/-- The external collaborators of `matchJob` as injected pure stand-ins: the
résumé store, the extraction and embedding oracles, the vector-index
similarity query, and the two generation oracles. -/
structure OrchestratorEnv where
  resumes : List ResumeRecord
  extractSkills : String → ExtractedSkills
  generateEmbedding : String → List ℚ
  querySimilar : List ℚ → Nat → List VectorQueryResult
  generateQuestions : SkillGap → String → List String → List String
  generateRecommendations : SkillGap → String → List String

/-- The record-store state `matchJob` mutates: a fresh-id counter for created
jobs and the job and match tables. The prisma `matches` table is named
`matchRows` (`matches` is a Lean keyword). -/
structure OrchestratorState where
  nextJobId : Nat
  jobs : List JobRecord
  matchRows : List MatchRecord
deriving Repr

/-- The two early-exit error kinds of `matchJob`. -/
inductive MatchError
  | validationError (message : String)
  | notFound (message : String)
deriving DecidableEq, Repr

/-- The observable external operations `matchJob` performs, in order. -/
inductive OracleCall
  | resumeLookup
  | skillExtraction
  | embeddingCall
  | jobCreate
  | vectorUpsert
  | similarityQuery
  | questionGeneration
  | recommendationGeneration
  | matchUpsert
deriving DecidableEq, Repr

/-- Embeds the `matchJob` controller (part_002 lines 17-159): validate, look
up the résumé, extract job skills, embed, create the job row (fresh id),
upsert the job vector (id `job_<jobId>`, recorded back on the job row), embed
the résumé, query the top-10 similar job vectors, score, reconcile gaps,
generate questions and recommendations, and upsert the match row. Returns the
result, the post state, and the trace of external operations performed. -/
def matchJob (env : OrchestratorEnv) (st : OrchestratorState)
    (req : JobMatchRequest) :
    Except MatchError MatchRecord × OrchestratorState × List OracleCall :=
  match validateJobMatchRequest req with
  | some msg => (Except.error (MatchError.validationError msg), st, [])
  | none =>
    match env.resumes.find? (fun r => r.id == req.resumeId) with
    | none =>
      (Except.error (MatchError.notFound "Resume not found"), st,
       [OracleCall.resumeLookup])
    | some resume =>
      let jobSkills := env.extractSkills req.jobDescription
      let _jobEmbedding := env.generateEmbedding req.jobDescription
      let jobId := st.nextJobId
      let jobVectorId := "job_" ++ toString jobId
      let job : JobRecord :=
        ⟨jobId, req.jobTitle, req.company, req.jobDescription, jobSkills,
         some jobVectorId⟩
      let resumeEmbedding := env.generateEmbedding resume.rawText
      let similarResults := env.querySimilar resumeEmbedding 10
      let similarityScore := matchSimilarityScore similarResults jobVectorId
      let skillGaps := analyzeSkillGaps resume.extractedSkills jobSkills
      let interviewQuestions :=
        env.generateQuestions skillGaps req.jobTitle skillGaps.matched
      let recommendations := env.generateRecommendations skillGaps req.jobTitle
      let m : MatchRecord :=
        ⟨req.resumeId, jobId, similarityScore, skillGaps, skillGaps.matched,
         interviewQuestions, recommendations⟩
      (Except.ok m,
       ⟨st.nextJobId + 1, st.jobs ++ [job], upsertJobMatch st.matchRows m⟩,
       [OracleCall.resumeLookup, OracleCall.skillExtraction,
        OracleCall.embeddingCall, OracleCall.jobCreate, OracleCall.vectorUpsert,
        OracleCall.embeddingCall, OracleCall.similarityQuery,
        OracleCall.questionGeneration, OracleCall.recommendationGeneration,
        OracleCall.matchUpsert])

/-- An empty skill profile. -/
def demoSkills : ExtractedSkills := ⟨[], [], [], [], [], none, none, none, none⟩

/-- A stored résumé used as concrete input. -/
def demoResumeRecord : ResumeRecord := ⟨"r1", "resume raw text", demoSkills, none⟩

/-- A stored résumé that owns a vector record. -/
def demoResumeWithVector : ResumeRecord :=
  ⟨"r1", "resume raw text", demoSkills, some "resume_r1"⟩

/-- A concrete environment with stub oracles. -/
def demoEnv : OrchestratorEnv :=
  ⟨[demoResumeRecord], fun _ => demoSkills, fun _ => [], fun _ _ => [],
   fun _ _ _ => [], fun _ _ => []⟩

/-- A concrete valid match request (description well over 50 characters). -/
def demoRequest : JobMatchRequest :=
  ⟨"r1", "Backend Engineer",
   "Backend engineer role needing long experience with distributed systems and APIs.",
   none⟩

/-- The empty record store. -/
def emptyState : OrchestratorState := ⟨0, [], []⟩

/-- A vector-index hit whose owning résumé may or may not exist in storage. -/
def demoHit : VectorQueryResult :=
  ⟨"resume_r1", 0, ⟨VKind.resumeKind, "r1", [], none⟩⟩

lemma foldl_gapStep_matched (rs : List String) (l : List String) :
    ∀ g : SkillGap,
      (l.foldl (gapStep rs) g).matched
        = g.matched ++ l.filter (fun s => classifySkill rs s == SkillClass.matchedC) := by
  induction l with
  | nil => intro g; simp
  | cons s l ih =>
    intro g
    cases h : classifySkill rs s <;>
      simp [gapStep, h, ih, List.filter_cons]

lemma foldl_gapStep_partial (rs : List String) (l : List String) :
    ∀ g : SkillGap,
      (l.foldl (gapStep rs) g).partialSkills
        = g.partialSkills ++ l.filter (fun s => classifySkill rs s == SkillClass.partialC) := by
  induction l with
  | nil => intro g; simp
  | cons s l ih =>
    intro g
    cases h : classifySkill rs s <;>
      simp [gapStep, h, ih, List.filter_cons]

lemma foldl_gapStep_missing (rs : List String) (l : List String) :
    ∀ g : SkillGap,
      (l.foldl (gapStep rs) g).missing
        = g.missing ++ l.filter (fun s => classifySkill rs s == SkillClass.missingC) := by
  induction l with
  | nil => intro g; simp
  | cons s l ih =>
    intro g
    cases h : classifySkill rs s <;>
      simp [gapStep, h, ih, List.filter_cons]

/-- The three buckets of `analyzeSkillGaps` are exactly the order-preserving
filters of the job's combined skill list by the loop body's three-way
decision. -/
lemma analyzeSkillGaps_eq_filters (r j : ExtractedSkills) :
    (analyzeSkillGaps r j).matched
        = (jobAllSkills j).filter
            (fun s => classifySkill (resumeSkillSet r) s == SkillClass.matchedC)
    ∧ (analyzeSkillGaps r j).partialSkills
        = (jobAllSkills j).filter
            (fun s => classifySkill (resumeSkillSet r) s == SkillClass.partialC)
    ∧ (analyzeSkillGaps r j).missing
        = (jobAllSkills j).filter
            (fun s => classifySkill (resumeSkillSet r) s == SkillClass.missingC) := by
  refine ⟨?_, ?_, ?_⟩ <;>
    simp [analyzeSkillGaps, foldl_gapStep_matched, foldl_gapStep_partial, foldl_gapStep_missing]

lemma filter_classify_length (rs : List String) (l : List String) :
    (l.filter (fun s => classifySkill rs s == SkillClass.matchedC)).length
      + (l.filter (fun s => classifySkill rs s == SkillClass.partialC)).length
      + (l.filter (fun s => classifySkill rs s == SkillClass.missingC)).length
      = l.length := by
  induction l with
  | nil => simp
  | cons s l ih =>
    cases h : classifySkill rs s <;> simp [List.filter_cons, h] <;> omega

lemma classifySkill_eq_matchedC (rs : List String) (s : String) :
    classifySkill rs s = SkillClass.matchedC ↔ jsToLower s ∈ rs := by
  unfold classifySkill
  dsimp only
  split_ifs with h1 h2 <;> simp_all

lemma classifySkill_eq_partialC (rs : List String) (s : String) :
    classifySkill rs s = SkillClass.partialC
      ↔ jsToLower s ∉ rs
        ∧ ∃ t ∈ rs, strIncludes t (jsToLower s) = true ∨ strIncludes (jsToLower s) t = true := by
  unfold classifySkill
  dsimp only
  split_ifs with h1 h2 <;> simp_all

lemma classifySkill_eq_missingC (rs : List String) (s : String) :
    classifySkill rs s = SkillClass.missingC
      ↔ jsToLower s ∉ rs
        ∧ ¬ ∃ t ∈ rs, strIncludes t (jsToLower s) = true ∨ strIncludes (jsToLower s) t = true := by
  unfold classifySkill
  dsimp only
  split_ifs with h1 h2 <;> simp_all

/-- C1: for every résumé profile and job profile, the SkillGap returned by
`analyzeSkillGaps` partitions the job's combined skill list: the three bucket
lengths sum to the combined list's length (duplicates kept), each bucket is
the order-preserving filter of the combined list by the loop's three-way
decision (hence order follows the job skill list's original order), and every
job skill lands in exactly one of the three buckets. -/
theorem reconciler_partitions_job_skills (r j : ExtractedSkills) :
    ((analyzeSkillGaps r j).matched.length + (analyzeSkillGaps r j).partialSkills.length
        + (analyzeSkillGaps r j).missing.length = (jobAllSkills j).length)
    ∧ (analyzeSkillGaps r j).matched
        = (jobAllSkills j).filter
            (fun s => classifySkill (resumeSkillSet r) s == SkillClass.matchedC)
    ∧ (analyzeSkillGaps r j).partialSkills
        = (jobAllSkills j).filter
            (fun s => classifySkill (resumeSkillSet r) s == SkillClass.partialC)
    ∧ (analyzeSkillGaps r j).missing
        = (jobAllSkills j).filter
            (fun s => classifySkill (resumeSkillSet r) s == SkillClass.missingC)
    ∧ ∀ s ∈ jobAllSkills j,
        (s ∈ (analyzeSkillGaps r j).matched ∧ s ∉ (analyzeSkillGaps r j).partialSkills
            ∧ s ∉ (analyzeSkillGaps r j).missing)
        ∨ (s ∉ (analyzeSkillGaps r j).matched ∧ s ∈ (analyzeSkillGaps r j).partialSkills
            ∧ s ∉ (analyzeSkillGaps r j).missing)
        ∨ (s ∉ (analyzeSkillGaps r j).matched ∧ s ∉ (analyzeSkillGaps r j).partialSkills
            ∧ s ∈ (analyzeSkillGaps r j).missing) := by
  obtain ⟨h1, h2, h3⟩ := analyzeSkillGaps_eq_filters r j
  refine ⟨?_, h1, h2, h3, ?_⟩
  · rw [h1, h2, h3]
    exact filter_classify_length _ _
  · intro s hs
    rw [h1, h2, h3]
    cases hc : classifySkill (resumeSkillSet r) s
    · exact Or.inl (by simp [List.mem_filter, hs, hc])
    · exact Or.inr (Or.inl (by simp [List.mem_filter, hs, hc]))
    · exact Or.inr (Or.inr (by simp [List.mem_filter, hs, hc]))

/-- Witness for C1 at the spec's Python/Docker vs Python/AWS/Django scenario:
the job skill Python lands in one of the three buckets. -/
theorem reconciler_partitions_job_skills_witness :
    "Python" ∈ (analyzeSkillGaps pythonResumeProfile pythonJobProfile).matched
    ∨ "Python" ∈ (analyzeSkillGaps pythonResumeProfile pythonJobProfile).partialSkills
    ∨ "Python" ∈ (analyzeSkillGaps pythonResumeProfile pythonJobProfile).missing := by
  rcases (reconciler_partitions_job_skills pythonResumeProfile pythonJobProfile).2.2.2.2
      "Python" (by decide) with h | h | h
  · exact Or.inl h.1
  · exact Or.inr (Or.inl h.2.1)
  · exact Or.inr (Or.inr h.2.2)

/-- C2: each job skill goes to `matched` exactly when its lower-casing is in
the résumé's lower-cased combined skill set (exact match has priority over any
substring match), to `partial` exactly when it is not an exact match but is in
a two-way substring relation with some résumé skill, and to `missing`
otherwise; and résumé skills = React against job skills = React.js yields
partial = [React.js] with matched empty. -/
theorem reconciler_classification_rule :
    (∀ r j, (analyzeSkillGaps r j).matched
        = (jobAllSkills j).filter (fun s => decide (exactMatchSpec r s)))
    ∧ (∀ r j, (analyzeSkillGaps r j).partialSkills
        = (jobAllSkills j).filter
            (fun s => decide (¬ exactMatchSpec r s ∧ substringMatchSpec r s)))
    ∧ (∀ r j, (analyzeSkillGaps r j).missing
        = (jobAllSkills j).filter
            (fun s => decide (¬ exactMatchSpec r s ∧ ¬ substringMatchSpec r s)))
    ∧ analyzeSkillGaps ⟨["React"], [], [], [], [], none, none, none, none⟩
        ⟨["React.js"], [], [], [], [], none, none, none, none⟩
      = ⟨[], [], ["React.js"]⟩ := by
  refine ⟨?_, ?_, ?_, by decide⟩
  · intro r j
    rw [(analyzeSkillGaps_eq_filters r j).1]
    refine List.filter_congr ?_
    intro s _
    by_cases hP : exactMatchSpec r s
    · simp [hP, (classifySkill_eq_matchedC (resumeSkillSet r) s).mpr hP]
    · have hne : classifySkill (resumeSkillSet r) s ≠ SkillClass.matchedC :=
        fun hc => hP ((classifySkill_eq_matchedC (resumeSkillSet r) s).mp hc)
      simp [hP, hne]
  · intro r j
    rw [(analyzeSkillGaps_eq_filters r j).2.1]
    refine List.filter_congr ?_
    intro s _
    by_cases hP : ¬ exactMatchSpec r s ∧ substringMatchSpec r s
    · simp [hP, (classifySkill_eq_partialC (resumeSkillSet r) s).mpr ⟨hP.1, hP.2⟩]
    · have hne : classifySkill (resumeSkillSet r) s ≠ SkillClass.partialC := by
        intro hc
        exact hP ⟨((classifySkill_eq_partialC (resumeSkillSet r) s).mp hc).1,
          ((classifySkill_eq_partialC (resumeSkillSet r) s).mp hc).2⟩
      simp [hP, hne]
  · intro r j
    rw [(analyzeSkillGaps_eq_filters r j).2.2]
    refine List.filter_congr ?_
    intro s _
    by_cases hP : ¬ exactMatchSpec r s ∧ ¬ substringMatchSpec r s
    · simp [hP, (classifySkill_eq_missingC (resumeSkillSet r) s).mpr ⟨hP.1, hP.2⟩]
    · have hne : classifySkill (resumeSkillSet r) s ≠ SkillClass.missingC := by
        intro hc
        exact hP ⟨((classifySkill_eq_missingC (resumeSkillSet r) s).mp hc).1,
          ((classifySkill_eq_missingC (resumeSkillSet r) s).mp hc).2⟩
      simp [hP, hne]

/-- C3 counterexample: with a top-10 result list that does not contain the
inserted job vector id, the stored similarityScore is 50 (the percentage
encoding of the defaulted raw score 0), not 0 as the claim states. -/
theorem missing_hit_scores_fifty_cex :
    (List.find? (fun r => r.id == "job_0") ([] : List VectorQueryResult) = none)
    ∧ matchSimilarityScore [] "job_0" = 50
    ∧ matchSimilarityScore [] "job_0" ≠ 0 := by
  refine ⟨rfl, ?_, ?_⟩ <;>
    norm_num [matchSimilarityScore, calculateSimilarityPercentage, jsRound]

/-- C3 amended: when the top-10 similarity results do not contain the
just-inserted job vector id, the raw cosine score defaults to 0, so the
resulting MatchResult similarityScore equals 50 (a degraded result, not an
error). -/
theorem missing_hit_scores_fifty (results : List VectorQueryResult) (id : String)
    (h : results.find? (fun r => r.id == id) = none) :
    matchSimilarityScore results id = 50 := by
  unfold matchSimilarityScore
  rw [h]
  norm_num [calculateSimilarityPercentage, jsRound]

/-- Witness for the amended C3 at the empty result list. -/
theorem missing_hit_scores_fifty_witness :
    matchSimilarityScore [] "job_1" = 50 :=
  missing_hit_scores_fifty [] "job_1" rfl

/-- C4 counterexample: for the out-of-range input 2 the scorer returns 150;
the final percentage is not clamped to the range 0..100. -/
theorem scorer_no_clamping_cex :
    calculateSimilarityPercentage 2 = 150
    ∧ ¬ calculateSimilarityPercentage 2 ≤ 100 := by
  norm_num [calculateSimilarityPercentage, jsRound]

/-- C4 amended: the scorer computes round(((score + 1) / 2) * 100, 1), so -1
maps to 0, 0 to 50 and 1 to 100, and for inputs inside the cosine range -1..1
the result lies in 0..100; no clamping is applied, so inputs outside -1..1
yield values outside 0..100 (see the counterexample). -/
theorem scorer_formula_and_range :
    calculateSimilarityPercentage (-1) = 0
    ∧ calculateSimilarityPercentage 0 = 50
    ∧ calculateSimilarityPercentage 1 = 100
    ∧ ∀ s : ℚ, -1 ≤ s → s ≤ 1 →
        0 ≤ calculateSimilarityPercentage s
        ∧ calculateSimilarityPercentage s ≤ 100 := by
  refine ⟨by norm_num [calculateSimilarityPercentage, jsRound],
    by norm_num [calculateSimilarityPercentage, jsRound],
    by norm_num [calculateSimilarityPercentage, jsRound], ?_⟩
  intro s h1 h2
  unfold calculateSimilarityPercentage jsRound
  dsimp only
  have hx0 : (0 : ℚ) ≤ (s + 1) / 2 * 100 * 10 + 1 / 2 := by nlinarith
  have hx1 : (s + 1) / 2 * 100 * 10 + 1 / 2 ≤ 2001 / 2 := by nlinarith
  have hf0 : (0 : ℤ) ≤ ⌊(s + 1) / 2 * 100 * 10 + 1 / 2⌋ := Int.floor_nonneg.mpr hx0
  have hf1 : ⌊(s + 1) / 2 * 100 * 10 + 1 / 2⌋ ≤ (1000 : ℤ) := by
    have hm := Int.floor_le_floor hx1
    have h2001 : ⌊(2001 : ℚ) / 2⌋ = (1000 : ℤ) := by norm_num
    rw [h2001] at hm
    exact hm
  constructor
  · have hc : (0 : ℚ) ≤ (⌊(s + 1) / 2 * 100 * 10 + 1 / 2⌋ : ℚ) := by exact_mod_cast hf0
    linarith
  · have hc : ((⌊(s + 1) / 2 * 100 * 10 + 1 / 2⌋ : ℤ) : ℚ) ≤ 1000 := by exact_mod_cast hf1
    linarith

/-- Witness for the amended C4 at score 1/2. -/
theorem scorer_formula_and_range_witness :
    0 ≤ calculateSimilarityPercentage (1 / 2)
    ∧ calculateSimilarityPercentage (1 / 2) ≤ 100 :=
  scorer_formula_and_range.2.2.2 (1 / 2) (by norm_num) (by norm_num)

/-- C6 counterexample: the candidate finder only clamps topK from above. A
requested topK of 0 requests 0 from the index (not 1), and returns no entry
even though the index holds one hit. -/
theorem find_candidates_no_lower_clamp_cex :
    requestedTopK 0 = 0
    ∧ ¬ 1 ≤ requestedTopK 0
    ∧ findCandidates [demoHit] [] 0 = [] := by
  refine ⟨by decide, by decide, ?_⟩
  rfl

/-- C6 amended: `findCandidates` clamps topK only from above, to at most 20:
it requests min(topK, 20) from the index and never returns more entries than
that; a request with topK below 1 is passed through unclamped (topK = 0
requests and returns 0 entries). -/
theorem find_candidates_upper_clamp (index : List VectorQueryResult)
    (resumes : List ResumeSummary) (topK : Int) :
    (findCandidates index resumes topK).length ≤ (requestedTopK topK).toNat
    ∧ (requestedTopK topK).toNat ≤ 20 := by
  constructor
  · unfold findCandidates
    simp [List.length_take]
  · unfold requestedTopK
    omega

/-- C7 counterexample: a vector hit whose owning résumé is absent from
storage is not dropped: the output still has one entry, carrying no résumé
record and only a similarity score. -/
theorem find_candidates_dangling_kept_cex :
    findCandidates [demoHit] [] 5
      = [{ resumeRec := none, similarityScore := 50 }] := by
  have h50 : calculateSimilarityPercentage 0 = 50 := by
    norm_num [calculateSimilarityPercentage, jsRound]
  simp [findCandidates, requestedTopK, demoHit, h50]

/-- C7 amended: `findCandidates` keeps every hit within the clamped topK
regardless of whether its owning résumé still exists: the output length is
min(min(topK, 20), index size), and each output entry is a hit joined by
`find?` against résumé storage — `none` (all résumé fields absent) when the
owning résumé was deleted. -/
theorem find_candidates_keeps_dangling (index : List VectorQueryResult)
    (resumes : List ResumeSummary) (topK : Int) :
    (findCandidates index resumes topK).length
        = min (requestedTopK topK).toNat index.length
    ∧ ∀ c ∈ findCandidates index resumes topK, ∃ hit ∈ index,
        c = { resumeRec := resumes.find? (fun x => x.id == hit.metadata.id)
              similarityScore := calculateSimilarityPercentage hit.score } := by
  constructor
  · unfold findCandidates
    simp [List.length_take]
  · intro c hc
    unfold findCandidates at hc
    simp only [List.mem_map] at hc
    obtain ⟨hit, hmem, rfl⟩ := hc
    exact ⟨hit, List.take_subset _ _ hmem, rfl⟩

/-- Witness for the amended C7: the dangling-hit entry of the counterexample
input is the `find?` join of the single index hit. -/
theorem find_candidates_keeps_dangling_witness :
    ∃ hit ∈ [demoHit],
      ({ resumeRec := none, similarityScore := 50 } : CandidateEntry)
        = { resumeRec := ([] : List ResumeSummary).find? (fun x => x.id == hit.metadata.id)
            similarityScore := calculateSimilarityPercentage hit.score } := by
  refine (find_candidates_keeps_dangling [demoHit] [] 5).2
    { resumeRec := none, similarityScore := 50 } ?_
  have h50 : calculateSimilarityPercentage 0 = 50 := by
    norm_num [calculateSimilarityPercentage, jsRound]
  simp [findCandidates, requestedTopK, demoHit, h50]

/-- C8 counterexample: after schema normalization of an input with every
field absent, `education` and `certifications` are still absent (they are
`.optional()`, not `.default([])`), while the five skill-list fields are
coerced to empty lists. -/
theorem schema_education_stays_optional_cex :
    (parseExtractedSkills ⟨none, none, none, none, none, none, none, none, none⟩).education
        = none
    ∧ (parseExtractedSkills
        ⟨none, none, none, none, none, none, none, none, none⟩).certifications = none
    ∧ (parseExtractedSkills
        ⟨none, none, none, none, none, none, none, none, none⟩).technicalSkills = [] :=
  ⟨rfl, rfl, rfl⟩

/-- C8 amended: normalization coerces the five missing skill-list fields
(technicalSkills, frameworks, languages, tools, softSkills) to empty lists
and leaves all optional fields — the scalars and also the `education` and
`certifications` lists — unchanged, so the latter two may remain absent. -/
theorem schema_defaults_lists (raw : RawExtractedSkills) :
    (parseExtractedSkills raw).technicalSkills = raw.technicalSkills.getD []
    ∧ (parseExtractedSkills raw).frameworks = raw.frameworks.getD []
    ∧ (parseExtractedSkills raw).languages = raw.languages.getD []
    ∧ (parseExtractedSkills raw).tools = raw.tools.getD []
    ∧ (parseExtractedSkills raw).softSkills = raw.softSkills.getD []
    ∧ (parseExtractedSkills raw).yearsOfExperience = raw.yearsOfExperience
    ∧ (parseExtractedSkills raw).currentRole = raw.currentRole
    ∧ (parseExtractedSkills raw).education = raw.education
    ∧ (parseExtractedSkills raw).certifications = raw.certifications :=
  ⟨rfl, rfl, rfl, rfl, rfl, rfl, rfl, rfl, rfl⟩

/-- C10: `deleteVector` swallows any failure of the index delete operation
(catch logs only), so it always reports success; `deleteResume` is therefore
insensitive to the index outcome, and whenever the résumé exists it reports
success and removes the row even when the owning vector could not be deleted
from the index. -/
theorem delete_vector_never_fails :
    (∀ outcome : Except String Unit, deleteVector outcome = Except.ok ())
    ∧ (∀ (resumes : List ResumeRecord) (id : String)
          (o₁ o₂ : Except String Unit),
        deleteResume resumes id o₁ = deleteResume resumes id o₂)
    ∧ ∀ (resumes : List ResumeRecord) (id : String) (r : ResumeRecord)
        (o : Except String Unit),
        resumes.find? (fun x => x.id == id) = some r →
        deleteResume resumes id o
          = Except.ok (resumes.filter (fun x => !(x.id == id))) := by
  refine ⟨?_, ?_, ?_⟩
  · intro o
    cases o <;> rfl
  · intro resumes id o₁ o₂
    unfold deleteResume
    cases hf : resumes.find? (fun x => x.id == id) with
    | none => rfl
    | some r => cases r.vectorId <;> cases o₁ <;> cases o₂ <;> rfl
  · intro resumes id r o hf
    obtain ⟨rid, rtext, rsk, rvec⟩ := r
    cases rvec <;> cases o <;> simp [deleteResume, hf, deleteVector]

/-- Witness for C10: deleting the stored résumé that owns a vector succeeds
even when the index delete operation fails. -/
theorem delete_vector_never_fails_witness :
    deleteResume [demoResumeWithVector] "r1" (Except.error "index down")
      = Except.ok (([demoResumeWithVector] : List ResumeRecord).filter
          (fun x => !(x.id == "r1"))) :=
  delete_vector_never_fails.2.2 [demoResumeWithVector] "r1" demoResumeWithVector
    (Except.error "index down") (by rfl)

/-- C5: when validation fails — empty resumeId, empty jobTitle, or a
jobDescription shorter than 50 characters — `matchJob` returns a
ValidationError with the record store untouched and no external operation
performed: no extraction, embedding, vector or similarity call, and no job or
match record created. -/
theorem match_validation_fails_fast (env : OrchestratorEnv)
    (st : OrchestratorState) (req : JobMatchRequest)
    (h : req.resumeId.length = 0 ∨ req.jobTitle.length = 0
        ∨ req.jobDescription.length < 50) :
    (∃ msg, (matchJob env st req).1 = Except.error (MatchError.validationError msg))
    ∧ (matchJob env st req).2.1 = st
    ∧ (matchJob env st req).2.2 = [] := by
  have hv : ∃ msg, validateJobMatchRequest req = some msg := by
    unfold validateJobMatchRequest
    split_ifs with h1 h2 h3
    · exact ⟨_, rfl⟩
    · exact ⟨_, rfl⟩
    · exact ⟨_, rfl⟩
    · omega
  obtain ⟨msg, hm⟩ := hv
  refine ⟨⟨msg, ?_⟩, ?_, ?_⟩ <;> simp [matchJob, hm]

/-- Witness for C5: a 49-character job description is rejected with no
external operation and no state change. -/
theorem match_validation_fails_fast_witness :
    (("r1" : String).length = 0 ∨ ("Backend Engineer" : String).length = 0
        ∨ ("aaaaaaaaaaaaaaaaaaaaaaaaaaaaaaaaaaaaaaaaaaaaaaaaa" : String).length < 50)
    ∧ ((∃ msg,
          (matchJob demoEnv emptyState
            ⟨"r1", "Backend Engineer",
             "aaaaaaaaaaaaaaaaaaaaaaaaaaaaaaaaaaaaaaaaaaaaaaaaa", none⟩).1
            = Except.error (MatchError.validationError msg))
        ∧ (matchJob demoEnv emptyState
            ⟨"r1", "Backend Engineer",
             "aaaaaaaaaaaaaaaaaaaaaaaaaaaaaaaaaaaaaaaaaaaaaaaaa", none⟩).2.1
            = emptyState
        ∧ (matchJob demoEnv emptyState
            ⟨"r1", "Backend Engineer",
             "aaaaaaaaaaaaaaaaaaaaaaaaaaaaaaaaaaaaaaaaaaaaaaaaa", none⟩).2.2 = []) :=
  ⟨by decide,
   match_validation_fails_fast demoEnv emptyState
     ⟨"r1", "Backend Engineer",
      "aaaaaaaaaaaaaaaaaaaaaaaaaaaaaaaaaaaaaaaaaaaaaaaaa", none⟩ (by decide)⟩

lemma pairCount_upsert (ms : List MatchRecord) (m : MatchRecord)
    (h : ∀ rid jid, pairCount ms rid jid ≤ 1) :
    ∀ rid jid, pairCount (upsertJobMatch ms m) rid jid ≤ 1 := by
  intro rid jid
  unfold upsertJobMatch pairCount
  by_cases hex : ms.any (fun x => x.resumeId == m.resumeId && x.jobId == m.jobId) = true
  · rw [if_pos hex, List.countP_map]
    have hcongr : ms.countP
        ((fun x => x.resumeId == rid && x.jobId == jid)
          ∘ fun x => if x.resumeId == m.resumeId && x.jobId == m.jobId then m else x)
        = ms.countP (fun x => x.resumeId == rid && x.jobId == jid) := by
      refine List.countP_congr ?_
      intro x _
      by_cases hk : (x.resumeId == m.resumeId && x.jobId == m.jobId) = true
      · have h1 : x.resumeId = m.resumeId := by
          simpa using (Bool.and_elim_left hk)
        have h2 : x.jobId = m.jobId := by
          simpa using (Bool.and_elim_right hk)
        simp [Function.comp, hk, h1, h2]
      · simp [Function.comp, hk]
    rw [hcongr]
    exact h rid jid
  · rw [if_neg hex, List.countP_append]
    by_cases hm : (m.resumeId == rid && m.jobId == jid) = true
    · have h1 : m.resumeId = rid := by simpa using (Bool.and_elim_left hm)
      have h2 : m.jobId = jid := by simpa using (Bool.and_elim_right hm)
      have hzero : ms.countP (fun x => x.resumeId == rid && x.jobId == jid) = 0 := by
        refine List.countP_eq_zero.mpr ?_
        intro x hx hpx
        apply hex
        rw [List.any_eq_true]
        refine ⟨x, hx, ?_⟩
        have hx1 : x.resumeId = rid := by simpa using (Bool.and_elim_left hpx)
        have hx2 : x.jobId = jid := by simpa using (Bool.and_elim_right hpx)
        simp [hx1, hx2, h1, h2]
      simp [hzero, hm]
    · have hone : List.countP (fun x => x.resumeId == rid && x.jobId == jid) [m] = 0 := by
        simp [List.countP_cons, hm]
      rw [hone]
      simpa using h rid jid

/-- C9 amended: the match upsert is keyed by the unique pair
(resumeId, jobId), so `matchJob` preserves the invariant that at most one
match row exists per pair; but each call creates a fresh job row with a new
jobId, so a repeated request with the same (resumeId, jobDescription) adds a
second match row for a different pair instead of overwriting the first (the
upsert update branch is never reached by repeated requests). -/
theorem match_upsert_unique_per_pair (env : OrchestratorEnv)
    (st : OrchestratorState) (req : JobMatchRequest)
    (h : ∀ rid jid, pairCount st.matchRows rid jid ≤ 1) :
    ∀ rid jid, pairCount (matchJob env st req).2.1.matchRows rid jid ≤ 1 := by
  unfold matchJob
  cases hv : validateJobMatchRequest req with
  | some msg => simpa using h
  | none =>
    cases hf : env.resumes.find? (fun r => r.id == req.resumeId) with
    | none => simpa using h
    | some resume =>
      simpa using pairCount_upsert st.matchRows _ h

/-- Witness for the amended C9: from the empty store (trivially at most one
row per pair), one `matchJob` run keeps every pair's row count at most 1. -/
theorem match_upsert_unique_per_pair_witness :
    pairCount (matchJob demoEnv emptyState demoRequest).2.1.matchRows "r1" 0 ≤ 1 :=
  match_upsert_unique_per_pair demoEnv emptyState demoRequest
    (by intro rid jid; simp [emptyState, pairCount]) "r1" 0

/-- C9 counterexample: two `matchJob` calls with the same
(resumeId, jobDescription) do not overwrite one match row — they leave two
match rows, for two distinct jobIds (0 and 1), because each call creates a
fresh job record. -/
theorem repeated_match_adds_row_cex :
    (matchJob demoEnv (matchJob demoEnv emptyState demoRequest).2.1
        demoRequest).2.1.matchRows.length = 2
    ∧ ((matchJob demoEnv (matchJob demoEnv emptyState demoRequest).2.1
        demoRequest).2.1.matchRows.map MatchRecord.jobId) = [0, 1] := by
  constructor <;> rfl
